import Mathlib

/-!
Verification of the mental-health support chatbot
(`chatbot project2/scripts/code2.py`).

The development shallowly embeds the program's core: the sentiment
keyword counter (`analyze_sentiment`), the fuzzy knowledge-base lookup
(`find_best_match` over `difflib.get_close_matches`), the pattern
response engine (the fixed table of regex rules handed to
`nltk.chat.util.Chat`), the response orchestration (`respond` with its
conversation logging), the resource suggester (`suggest_resources`),
the resource seeding (`initialize_resources`), and the send handler of
the Tk shell (`send_message`).

Stateful parts (the sqlite `conversations` and `resources` tables, the
chat display) are modelled by explicit state passing over a `DB`
respectively `UIState` value.  Randomness (`random.choice`,
`random.random() < 0.3`) is modelled by explicit choice parameters: a
`Nat` index selects the list element `random.choice` would return, and
a `Bool` tells whether the 30% resource-suggestion branch fires.
External library code (`difflib`, `nltk`, file IO of the knowledge
base) is modelled from the spec where noted on the definitions.
-/

/-- A knowledge-base entry: one `{question, answer}` pair of
`knowledge_base.json` (spec section 3, `KnowledgeEntry`). -/
structure KBEntry where
  question : String
  answer : String
deriving DecidableEq, Repr

/-- One row of the `conversations` table as written by
`_log_conversation` (code2.py lines 218-223): the sqlite insert fills
`user_input`, `bot_response` and `sentiment_score`.  The `timestamp`
column (a sqlite default) is outside the program's own computation and
is not modelled. -/
structure ConversationRecord where
  user_input : String
  bot_response : String
  sentiment_score : Int
deriving DecidableEq, Repr

/-- One row of the `resources` table (title, description, url,
category), without the autoincrement id. -/
structure ResourceEntry where
  title : String
  description : String
  url : String
  category : String
deriving DecidableEq, Repr

/-- The mutable database state: the `conversations` and `resources`
tables (the `user_profiles` table is never written or read by the
program's logic and is omitted). -/
structure DB where
  conversations : List ConversationRecord
  resources : List ResourceEntry
deriving DecidableEq, Repr

/-- Explicit randomness for one turn of `respond` (`TurnRand`): `patternChoice`
selects which template `random.choice` picks inside the nltk chat
engine, `followChoice` selects among the four generic follow-ups. -/
structure TurnRand where
  patternChoice : Nat
  followChoice : Nat
deriving DecidableEq, Repr

/-- Python `text.lower()` restricted to the program's use: character
by character lower-casing (all strings involved are ASCII). -/
def lowerStr (s : String) : String := String.mk (s.data.map Char.toLower)

/-- Python `str.split()` with no separator: split on runs of
whitespace, dropping empty tokens.  The accumulator holds the current
token reversed. -/
def splitWsAux : List Char → List Char → List String
  | [], acc => if acc.isEmpty then [] else [String.mk acc.reverse]
  | c :: rest, acc =>
    if c.isWhitespace then
      (if acc.isEmpty then splitWsAux rest [] else String.mk acc.reverse :: splitWsAux rest [])
    else splitWsAux rest (c :: acc)

/-- Python `text.split()` on a whole string. -/
def pySplit (s : String) : List String := splitWsAux s.data []

/-- `positive_words` of `analyze_sentiment` (code2.py line 171). -/
def positive_words : List String :=
  ["happy", "good", "great", "awesome", "better", "improved"]

/-- `negative_words` of `analyze_sentiment` (code2.py line 172). -/
def negative_words : List String :=
  ["sad", "depressed", "anxious", "bad", "terrible", "hopeless"]

/-- The body of the `for word in words` loop of `analyze_sentiment`
(code2.py lines 176-180): `+1` for a positive word, `-1` for a
negative word, unchanged otherwise. -/
def sentiment_step (score : Int) (word : String) : Int :=
  if word ∈ positive_words then score + 1
  else if word ∈ negative_words then score - 1
  else score

/-- `EnhancedMentalHealthChatbot.analyze_sentiment` (code2.py lines
169-182): lower-case, split on whitespace, fold the keyword counter
starting from 0. -/
def analyze_sentiment (text : String) : Int :=
  (pySplit (lowerStr text)).foldl sentiment_step 0

/-- The per-token score of the spec's sentiment contract (spec 4.4):
`+1` per token in the positive set, `-1` per token in the negative
set, 0 otherwise. -/
def token_score (word : String) : Int :=
  if word ∈ positive_words then 1
  else if word ∈ negative_words then -1
  else 0

/-- The spec's reference sentiment definition (spec 4.4, written from
the spec's words for the refinement claim C4): the signed sum of the
per-token scores of the lower-cased whitespace tokens. -/
def sentimentSpec (text : String) : Int :=
  ((pySplit (lowerStr text)).map token_score).sum

/-- The similarity threshold `cutoff=0.6` of `find_best_match`
(code2.py line 77), as the rational 6/10. -/
def sim_cutoff : ℚ := mkRat 6 10

/-- Modelled from the spec: `difflib.get_close_matches` is Python
standard-library code, not part of this repository.  Spec 4.1: keep
the candidates whose similarity to the user text reaches the cutoff
(on a 0-1 scale), and return the single closest one (the repository
always calls it with `n=1`); ties may resolve to any maximal match but
deterministically — here the first maximal candidate is kept.  The
similarity measure itself is the external `SequenceMatcher` ratio and
enters as the explicit function parameter `sim` (spec 4.1: "no hidden
randomness in the similarity step itself"). -/
def get_close_matches (sim : String → String → ℚ) (word : String)
    (possibilities : List String) (cutoff : ℚ) : List String :=
  match possibilities.filter (fun x => decide (cutoff ≤ sim x word)) with
  | [] => []
  | x :: xs => [xs.foldl (fun best y => if sim best word < sim y word then y else best) x]

/-- `find_best_match` (code2.py lines 76-78): the single close match
if one exists, else `none` (`matches[0] if matches else None`). -/
def find_best_match (sim : String → String → ℚ) (user_question : String)
    (questions : List String) : Option String :=
  (get_close_matches sim user_question questions sim_cutoff).head?

/-- `EnhancedMentalHealthChatbot._get_answer_for_question` (code2.py
lines 212-216): scan the knowledge base for the first entry with this
question text and return its answer; `none` when absent. -/
def get_answer_for_question (kb : List KBEntry) (question : String) : Option String :=
  (kb.find? (fun q => q.question = question)).map KBEntry.answer

/-- The knowledge-base step at the head of `respond` (code2.py lines
186-191), with Python truthiness made explicit: the early return fires
only when `find_best_match` yields a match, the matched question is
non-empty (`if best_match:`), the answer is found, and the answer is
non-empty (`if answer:`).  `some ans` is the value returned early;
`none` means control falls through to the pattern engine. -/
def kbStep (sim : String → String → ℚ) (kb : List KBEntry) (input : String) : Option String :=
  match find_best_match sim input (kb.map KBEntry.question) with
  | none => none
  | some best_match =>
    if best_match = "" then none
    else
      match get_answer_for_question kb best_match with
      | none => none
      | some answer => if answer = "" then none else some answer

/-- Whether a turn on `input` takes the knowledge-base early-return
path of `respond`. -/
def kbPathTaken (sim : String → String → ℚ) (kb : List KBEntry) (input : String) : Bool :=
  (kbStep sim kb input).isSome

/-- The three capture groups of one pattern rule
`(.*)LITERAL(alt1|alt2|...)(.*)`. -/
structure MatchGroups where
  g1 : String
  g2 : String
  g3 : String
deriving DecidableEq, Repr

/-- The shape shared by every regular expression of
`_load_response_patterns` (code2.py lines 90-161): thirteen rules of
the form `(.*)LITERAL(alt1|...|altk)(.*)` — where LITERAL is
" feeling " for the first rule and a single space for the others — and
the final catch-all `(.*)`. -/
inductive Pat where
  | rule (lit : String) (alts : List String)
  | any
deriving DecidableEq, Repr

/-- Whether a rule `(.*)lit(alts)(.*)` can place its literal at
character position `i` of the input: `lit` occurs at `i` and some
alternative occurs right after it (the trailing `(.*)` then matches
whatever remains). -/
def validAt (lit : List Char) (alts : List (List Char)) (l : List Char) (i : Nat) : Bool :=
  lit.isPrefixOf (l.drop i) && alts.any (fun a => a.isPrefixOf (l.drop (i + lit.length)))

/-- The alternative the regex alternation picks at a given suffix: the
first listed alternative that matches there. -/
def altAt (alts : List (List Char)) (s : List Char) : Option (List Char) :=
  alts.find? (fun a => a.isPrefixOf s)

/-- Modelled from the spec: the regular-expression matching performed
by the external `nltk.chat.util.Chat` engine on this repository's rule
table (spec 4.2: "test each PatternRule's regular expression against
the full input").  For the shape `(.*)lit(alt1|...)(.*)`, Python's
leftmost-greedy semantics make the first `(.*)` as long as possible:
group 1 is the text before the LAST position where `lit` followed by
some alternative occurs, group 2 is the first alternative matching
there, group 3 is the rest.  The catch-all `(.*)` always matches with
group 1 the whole input. -/
def patMatch : Pat → String → Option MatchGroups
  | Pat.any, input => some ⟨input, "", ""⟩
  | Pat.rule lit alts, input =>
    let l := input.data
    let litL := lit.data
    let altsL := alts.map String.data
    match ((List.range (l.length + 1)).filter (validAt litL altsL l)).getLast? with
    | none => none
    | some i =>
      match altAt altsL (l.drop (i + litL.length)) with
      | none => none
      | some a =>
        some ⟨String.mk (l.take i), String.mk a, String.mk (l.drop (i + litL.length + a.length))⟩

/-- `EnhancedMentalHealthChatbot._load_response_patterns` (code2.py
lines 88-161): the ordered rule table handed to the chat engine, with
each regex `(.*)LITERAL(alts)(.*)` represented by its literal and its
alternation (apostrophes in the template strings are written as the
escape \x27). -/
def pairs : List (Pat × List String) :=
  [ (Pat.rule " feeling " ["sad", "depressed", "lonely", "down", "exhausted", "hopeless"],
      ["I\x27m really sorry you\x27re feeling %2. That sounds really difficult. Would you like to share more about what\x27s going on?",
       "I hear that you\x27re feeling %2. That must be really hard. I\x27m here to listen if you want to talk about it."]),
    (Pat.rule " " ["stress", "anxiety", "stressed", "anxious", "panic", "overwhelmed"],
      ["%2 can feel really overwhelming. Remember to breathe - you\x27re doing great by reaching out. What specifically is causing your %2?",
       "I understand %2 can be really challenging. Would it help to talk through what\x27s bothering you?"]),
    (Pat.rule " " ["happy", "good", "great", "awesome", "wonderful"],
      ["I\x27m so glad you\x27re feeling %2! It\x27s wonderful to hear that. What\x27s contributing to these positive feelings?",
       "That\x27s fantastic that you\x27re feeling %2! Would you like to share what\x27s bringing you joy?"]),
    (Pat.rule " " ["burden", "useless", "worthless", "stupid", "not enough", "failure"],
      ["I want you to know that your feelings are valid, but I\x27m concerned that you\x27re being so hard on yourself. Would you talk to me more about why you feel this way?",
       "Hearing you say that makes me want to remind you that you matter. These thoughts can be really painful. Would you like to share what\x27s going on?"]),
    (Pat.rule " " ["suicide", "end it all", "kill myself", "don\x27t want to live"],
      ["I\x27m really concerned about what you\x27re saying. Your life is valuable. Please reach out to a crisis hotline immediately. In the US, you can call 988 for the Suicide & Crisis Lifeline. Would you like me to help you find local resources?",
       "I hear how much pain you\x27re in right now. Please know you\x27re not alone. Can I help you connect with someone who can provide more support?"]),
    (Pat.rule " " ["help me", "need help", "support"],
      ["I\x27m here to help. Can you tell me more about what kind of support you\x27re looking for?",
       "I want to provide the right kind of support. What would be most helpful for you right now?"]),
    (Pat.rule " " ["cope", "coping", "deal with"],
      ["Coping with difficult emotions can be challenging. Some strategies include deep breathing, talking to someone you trust, or engaging in a calming activity. What usually helps you when you\x27re struggling?",
       "Finding healthy ways to cope is so important. Would you like some suggestions for coping strategies that might help?"]),
    (Pat.rule " " ["angry", "frustrated", "annoyed", "irritated", "mad"],
      ["I hear that you\x27re feeling %2. It\x27s okay to feel this way. Would you like to talk about what\x27s causing these feelings?",
       "Feeling %2 can be really tough. Sometimes taking deep breaths or stepping away for a moment helps. What\x27s bothering you?"]),
    (Pat.rule " " ["scared", "afraid", "fearful", "terrified"],
      ["It sounds like you\x27re feeling %2. Fear can be overwhelming. You\x27re safe here—would you like to share what\x27s frightening you?",
       "I\x27m here with you while you feel %2. Would it help to talk through what\x27s scaring you?"]),
    (Pat.rule " " ["lonely", "isolated", "alone"],
      ["Feeling %2 can be so painful. You\x27re not alone—I\x27m here to listen. Would you like to talk about what\x27s happening?",
       "I hear your loneliness. Would it help to connect with someone you trust? You matter."]),
    (Pat.rule " " ["confused", "uncertain", "lost"],
      ["Feeling %2 is understandable when things are unclear. Let\x27s try to sort this out together. What\x27s on your mind?",
       "It\x27s okay to feel %2. Sometimes writing things down helps. Would you like to explore this more?"]),
    (Pat.rule " " ["grateful", "thankful", "appreciative"],
      ["It\x27s wonderful that you\x27re feeling %2! Gratitude can be so healing. What are you thankful for today?",
       "Celebrating these %2 feelings with you! Would you like to share what brought this on?"]),
    (Pat.rule " " ["numb", "empty", "detached"],
      ["Feeling %2 can be really disorienting. You\x27re not alone in this. Would you like to talk about what\x27s happening?",
       "I hear that you\x27re feeling %2. Sometimes our minds do this to protect us. Would it help to explore this together?"]),
    (Pat.any,
      ["I\x27m listening carefully. Can you tell me more about how you\x27re feeling?",
       "I hear you. How is this affecting you?"]) ]

/-- First-match-wins scan over the rule table (spec 4.2: "apply only
the first rule whose pattern matches"), also reporting the 0-based
index of the matching rule. -/
def matchFirstAux : Nat → List (Pat × List String) → String →
    Option (Nat × MatchGroups × List String)
  | _, [], _ => none
  | i, (p, ts) :: rest, input =>
    match patMatch p input with
    | some g => some (i, g, ts)
    | none => matchFirstAux (i + 1) rest input

/-- First matching rule of a table, with its index, capture groups and
response templates. -/
def matchFirst (ps : List (Pat × List String)) (input : String) :
    Option (Nat × MatchGroups × List String) :=
  matchFirstAux 0 ps input

/-- The numbered capture groups of a match, as the function the
template substitution reads (`%1`, `%2`, `%3`). -/
def groupsFun (g : MatchGroups) : Nat → String
  | 1 => g.g1
  | 2 => g.g2
  | 3 => g.g3
  | _ => ""

/-- Modelled from the spec: the placeholder substitution of the
external nltk engine (spec 4.2: "substitute each numbered placeholder
with the text captured by the corresponding group").  A `%` followed
by a digit d is replaced by group d; all other characters are kept. -/
def wildcards (g : Nat → String) : List Char → List Char
  | [] => []
  | ['%'] => ['%']
  | '%' :: d :: rest2 =>
    if d.isDigit then (g (d.toNat - 48)).data ++ wildcards g rest2
    else '%' :: wildcards g (d :: rest2)
  | c :: rest => c :: wildcards g rest

/-- `random.choice` on a list, with the random draw made explicit as
the index `c` modulo the list length (`""` for the empty list, which
`random.choice` would reject). -/
def choose (c : Nat) (l : List String) : String := l.getD (c % l.length) ""

/-- Modelled from the spec: `self.chatbot.respond(user_input)` — the
external `nltk.chat.util.Chat.respond` running on this repository's
`pairs` table (spec 4.2): find the first matching rule, choose one of
its response templates uniformly at random (index `c`), substitute the
placeholders; `none` when no rule matches (spec 4.2 notes the
catch-all prevents this). -/
def chatRespond (c : Nat) (input : String) : Option String :=
  match matchFirst pairs input with
  | none => none
  | some (_, g, ts) => some (String.mk (wildcards (groupsFun g) (choose c ts).data))

/-- The `follow_ups` list of `respond` (code2.py lines 198-203). -/
def follow_ups : List String :=
  ["I want to make sure I understand. Can you explain that in another way?",
   "I\x27m listening carefully. What else is on your mind?",
   "That\x27s important. How has this been affecting you?",
   "glad you could share that. What would be helpful for you right now?"]

/-- `EnhancedMentalHealthChatbot._log_conversation` (code2.py lines
218-223): append one row to the `conversations` table. -/
def log_conversation (user_input bot_response : String) (sentiment_score : Int)
    (db : DB) : DB :=
  { db with conversations := db.conversations ++ [⟨user_input, bot_response, sentiment_score⟩] }

/-- The response computed on the pattern path of `respond` (code2.py
lines 193-204): the pattern engine's result, replaced by a random
generic follow-up when it is missing, empty, or the literal "None"
(`if not response or response == "None"`). -/
def patternResponse (r : TurnRand) (input : String) : String :=
  match chatRespond r.patternChoice input with
  | none => choose r.followChoice follow_ups
  | some s => if s = "" ∨ s = "None" then choose r.followChoice follow_ups else s

/-- `EnhancedMentalHealthChatbot.respond` (code2.py lines 184-210):
return the knowledge-base answer early when the KB step fires (no
logging on that path); otherwise run the pattern engine, replace an
empty or literal "None" result by a random follow-up, compute the
sentiment of the raw input, log the turn, and return the response. -/
def respond (sim : String → String → ℚ) (kb : List KBEntry) (r : TurnRand)
    (db : DB) (input : String) : String × DB :=
  match kbStep sim kb input with
  | some answer => (answer, db)
  | none =>
    let response := patternResponse r input
    (response, log_conversation input response (analyze_sentiment input) db)

/-- A sequence of user turns fed to `respond`, each with its own
random draws, threading the database state. -/
def runSession (sim : String → String → ℚ) (kb : List KBEntry) (db : DB) :
    List (String × TurnRand) → DB
  | [] => db
  | (input, r) :: rest => runSession sim kb (respond sim kb r db input).2 rest

/-- The fixed literal resource rows of `ChatUI.initialize_resources`
(code2.py lines 344-372), in source order. -/
def seed_resources : List ResourceEntry :=
  [ ⟨"Vandrevala Foundation", "24/7 Mental Health Helpline: Call +91 9999 666 555", "https://www.vandrevalafoundation.com", "crisis"⟩,
    ⟨"iCall", "Psychosocial helpline (Mon-Sat, 10AM-8PM): +91 91529 87821", "https://icallhelpline.org", "crisis"⟩,
    ⟨"COOJ Mental Health Foundation", "Helpline for Goa: +91 98225 25200", "https://cooj.co.in", "crisis"⟩,
    ⟨"The Mind Clinic", "Online therapy sessions (Pan-India)", "https://themindclan.com", "therapy"⟩,
    ⟨"InnerHour", "Self-care app with Indian therapists", "https://www.theinnerhour.com", "therapy"⟩,
    ⟨"Manas", "Free counseling by TISS students", "https://www.tiss.edu/manas", "therapy"⟩,
    ⟨"Let\x27s Talk About Mental Health", "Hindi/English mental health guides", "https://letstalkaboutmentalhealth.com.in", "self-help"⟩,
    ⟨"The Health Collective", "Mental health stories & resources", "https://www.thehealthcollective.in", "education"⟩,
    ⟨"Sangath", "Mental health support for LGBTQ+", "https://sangath.in", "lgbtq"⟩,
    ⟨"Nazariya", "Queer-affirmative counseling", "http://nazariyaqfrg.tumblr.com", "lgbtq"⟩,
    ⟨"National Suicide Prevention Lifeline", "24/7 free and confidential support", "https://988lifeline.org", "crisis"⟩,
    ⟨"Crisis Text Line", "Text HOME to 741741 for 24/7 crisis support", "https://www.crisistextline.org", "crisis"⟩,
    ⟨"Mindfulness Exercises", "Guided mindfulness and meditation exercises", "https://www.mindful.org/free-mindfulness-resources/", "self-help"⟩,
    ⟨"7 Cups", "Free online therapy and counseling", "https://www.7cups.com", "therapy"⟩,
    ⟨"Anger Management", "Healthy ways to process anger", "https://www.apa.org/topics/anger/control", "anger"⟩,
    ⟨"Anxiety UK", "Support for anxiety and fear", "https://www.anxietyuk.org.uk", "fear"⟩,
    ⟨"The Friendship Bench", "Combat loneliness", "https://friendshipbenchzimbabwe.org", "loneliness"⟩,
    ⟨"Emotional Numbness Guide", "Understanding detachment", "https://www.healthline.com/health/emotional-numbness", "numbness"⟩ ]

/-- `ChatUI.initialize_resources` (code2.py lines 340-380): when
`SELECT COUNT(*) FROM resources` returns 0, insert the fixed literal
rows; otherwise leave the table as it is. -/
def initialize_resources (db : DB) : DB :=
  if db.resources.length = 0 then { db with resources := db.resources ++ seed_resources }
  else db

/-- The candidate set `suggest_resources` draws from (code2.py lines
227-231): the rows of the `resources` table with the given category
when a category is passed, the preloaded `self.resources` otherwise. -/
def resource_candidates (preloaded : List ResourceEntry) (category : Option String)
    (db : DB) : List ResourceEntry :=
  match category with
  | some cat => db.resources.filter (fun r => r.category = cat)
  | none => preloaded

/-- `EnhancedMentalHealthChatbot.suggest_resources` (code2.py lines
225-235): a random element of the candidate set (`random.choice`,
index `c`), or `None` when the set is empty; the database is only
read, and is returned unchanged to make that explicit. -/
def suggest_resources (preloaded : List ResourceEntry) (c : Nat)
    (category : Option String) (db : DB) : Option ResourceEntry × DB :=
  let resources := resource_candidates preloaded category db
  (if resources.isEmpty then none else resources.get? (c % resources.length), db)

/-- One rendered line of the chat display: the sender tag and the
message of `ChatUI.display_message`, plus its `resource` flag. -/
structure UIMsg where
  sender : String
  message : String
  resource : Bool
deriving DecidableEq, Repr

/-- The state the Tk shell acts on: the database and the sequence of
messages rendered in the scrolled chat display. -/
structure UIState where
  db : DB
  display : List UIMsg
deriving DecidableEq, Repr

/-- `ChatUI.display_message` (code2.py lines 279-283): append one
message to the chat display. -/
def display_message (sender message : String) (res : Bool) (ui : UIState) : UIState :=
  { ui with display := ui.display ++ [⟨sender, message, res⟩] }

/-- Python `str.strip()`: remove leading and trailing whitespace. -/
def pyStrip (s : String) : String :=
  String.mk (((s.data.dropWhile Char.isWhitespace).reverse.dropWhile Char.isWhitespace).reverse)

/-- The farewell rendered on the literal "quit" command (code2.py line
291). -/
def farewell_message : String :=
  "Thank you for chatting. Remember to be kind to yourself. You can always come back if you need to talk."

/-- `ChatUI.process_response` (code2.py lines 301-313), run
synchronously: compute the bot response, render it, and with the 30%
draw (`suggest` flag) render a resource suggestion built from the
selected row's title (`resource[1]`) and url (`resource[3]`) when one
exists. -/
def process_response (sim : String → String → ℚ) (kb : List KBEntry) (r : TurnRand)
    (preloaded : List ResourceEntry) (suggest : Bool) (sc : Nat)
    (user_input : String) (ui : UIState) : UIState :=
  let result := respond sim kb r ui.db user_input
  let ui1 := display_message "bot" result.1 false { ui with db := result.2 }
  if suggest then
    match (suggest_resources preloaded sc none ui1.db).1 with
    | some res =>
      display_message "bot" ("Here\x27s a resource that might help: " ++ res.title ++ "\n" ++ res.url) true ui1
    | none => ui1
  else ui1

/-- `ChatUI.send_message` (code2.py lines 285-299): strip the entry
text; an empty result is ignored; the literal "quit" (any case)
renders the farewell; otherwise the user message is rendered and the
response is processed. -/
def send_message (sim : String → String → ℚ) (kb : List KBEntry) (r : TurnRand)
    (preloaded : List ResourceEntry) (suggest : Bool) (sc : Nat)
    (raw : String) (ui : UIState) : UIState :=
  let user_input := pyStrip raw
  if user_input = "" then ui
  else if lowerStr user_input = "quit" then
    display_message "bot" farewell_message false ui
  else
    let ui1 := display_message "user" user_input false ui
    process_response sim kb r preloaded suggest sc user_input ui1

/-- `load_knowledge_base` on a missing file (code2.py lines 61-66):
the `FileNotFoundError` branch returns the literal
`{"questions": []}`, i.e. the empty entry list.  The file read itself
is external; only this fallback value is needed here. -/
def missing_file_knowledge_base : List KBEntry := []

/-- A concrete similarity function for witnesses: every pair of
strings is fully similar (ratio 1). -/
def fullSim : String → String → ℚ := fun _ _ => 1

/-- A concrete similarity function for witnesses: every pair of
strings is fully dissimilar (ratio 0). -/
def simZero : String → String → ℚ := fun _ _ => 0

/-- Whether the character list still contains a literal character
that the placeholder substitution keeps: it mirrors the match
structure of `wildcards`, returning `true` exactly when some branch
other than a placeholder substitution will emit a character. -/
def hasLit : List Char → Bool
  | [] => false
  | ['%'] => true
  | '%' :: d :: rest2 => if d.isDigit then hasLit rest2 else true
  | _ :: _ => true

theorem wildcards_length_pos (g : Nat → String) (t : List Char) (h : hasLit t = true) :
    0 < (wildcards g t).length := by
  induction t using hasLit.induct with
  | case1 => simp [hasLit] at h
  | case2 => simp [wildcards]
  | case3 d rest2 hd ih =>
    rw [hasLit, if_pos hd] at h
    have := ih h
    simp only [wildcards, if_pos hd, List.length_append]
    omega
  | case4 d rest2 hd =>
    simp [wildcards, hd]
  | case5 c rest h1 h2 =>
    simp [wildcards]

theorem sentiment_foldl_eq (l : List String) (acc : Int) :
    l.foldl sentiment_step acc = acc + (l.map token_score).sum := by
  induction l generalizing acc with
  | nil => simp
  | cons w ws ih =>
    simp only [List.foldl_cons, List.map_cons, List.sum_cons, ih]
    unfold sentiment_step token_score
    split_ifs <;> ring

/-- Claim C4: the Sentiment Scorer `analyze_sentiment` equals the
reference definition (lower-case, split on whitespace, sum +1 per
positive-keyword token and -1 per negative-keyword token, 0
otherwise), and in particular scores "I feel happy and good" as 2,
"I feel sad and hopeless" as -2, and the empty string as 0. -/
theorem analyze_sentiment_c4 :
    (∀ text, analyze_sentiment text = sentimentSpec text)
    ∧ analyze_sentiment "I feel happy and good" = 2
    ∧ analyze_sentiment "I feel sad and hopeless" = -2
    ∧ analyze_sentiment "" = 0 := by
  refine ⟨fun text => ?_, by decide, by decide, by decide⟩
  unfold analyze_sentiment sentimentSpec
  simpa using sentiment_foldl_eq (pySplit (lowerStr text)) 0

theorem respond_of_kbStep_some (sim : String → String → ℚ) (kb : List KBEntry)
    (r : TurnRand) (db : DB) (input a : String) (h : kbStep sim kb input = some a) :
    respond sim kb r db input = (a, db) := by
  unfold respond
  rw [h]

theorem respond_of_kbStep_none (sim : String → String → ℚ) (kb : List KBEntry)
    (r : TurnRand) (db : DB) (input : String) (h : kbStep sim kb input = none) :
    respond sim kb r db input =
      (patternResponse r input,
       log_conversation input (patternResponse r input) (analyze_sentiment input) db) := by
  unfold respond
  rw [h]

/-- Claim C1 counterexample: with the knowledge base
`[{question := "hi", answer := ""}]` and a similarity placing "hi" at
ratio 1, the lookup on input "hi" yields the match "hi" (whose stored
answer is the empty string), yet `respond` does NOT return that
answer immediately: Python's `if answer:` is false on `""`, control
falls through to the pattern path, and a row IS appended to the
conversations store — so a turn on which the knowledge-base lookup
yields an answer can change the store, refuting the claim as stated. -/
theorem respond_c1_counterexample :
    find_best_match fullSim "hi" (([⟨"hi", ""⟩] : List KBEntry).map KBEntry.question)
      = some "hi"
    ∧ (respond fullSim [⟨"hi", ""⟩] ⟨0, 0⟩ ⟨[], []⟩ "hi").2.conversations ≠ []
    ∧ (respond fullSim [⟨"hi", ""⟩] ⟨0, 0⟩ ⟨[], []⟩ "hi").1 ≠ "" := by
  refine ⟨by decide, by decide, by decide⟩

/-- Claim C1 (amended): for every user turn in which the
knowledge-base lookup yields a match whose matched question is
non-empty and whose stored answer is non-empty, `respond` returns
that answer immediately and performs no append to the conversation
log: the whole database, and with it the conversations store, is
unchanged by such a turn (no sentiment is computed on this path — the
returned state carries no sentiment record). -/
theorem respond_kb_path_c1 (sim : String → String → ℚ) (kb : List KBEntry)
    (r : TurnRand) (db : DB) (input q a : String)
    (h1 : find_best_match sim input (kb.map KBEntry.question) = some q)
    (h2 : q ≠ "")
    (h3 : get_answer_for_question kb q = some a)
    (h4 : a ≠ "") :
    respond sim kb r db input = (a, db) := by
  have hk : kbStep sim kb input = some a := by
    unfold kbStep
    rw [h1]
    simp [h2, h3, h4]
  exact respond_of_kbStep_some sim kb r db input a hk

/-- Witness for C1 (amended) at a concrete knowledge base with a
non-empty answer. -/
theorem respond_kb_path_c1_witness :
    respond fullSim [⟨"hi", "Hello there"⟩] ⟨0, 0⟩ ⟨[], []⟩ "hi"
      = ("Hello there", ⟨[], []⟩) :=
  respond_kb_path_c1 fullSim [⟨"hi", "Hello there"⟩] ⟨0, 0⟩ ⟨[], []⟩ "hi" "hi" "Hello there"
    (by decide) (by decide) (by decide) (by decide)

theorem kbStep_eq_none_of_not_taken (sim : String → String → ℚ) (kb : List KBEntry)
    (input : String) (h : kbPathTaken sim kb input = false) :
    kbStep sim kb input = none := by
  unfold kbPathTaken at h
  exact Option.not_isSome_iff_eq_none.mp (by simp [h])

/-- Claim C2: on every turn that does not take the knowledge-base
path, `respond` appends exactly one record whose fields are the raw
input, the returned response, and the sentiment of the raw input; and
over a whole session the log grows by exactly the number of
non-knowledge-base turns, however the two kinds of turns are
interleaved. -/
theorem respond_logs_c2 :
    (∀ (sim : String → String → ℚ) (kb : List KBEntry) (r : TurnRand) (db : DB)
       (input : String), kbPathTaken sim kb input = false →
       (respond sim kb r db input).2.conversations
         = db.conversations
             ++ [⟨input, (respond sim kb r db input).1, analyze_sentiment input⟩])
    ∧ (∀ (sim : String → String → ℚ) (kb : List KBEntry) (db : DB)
         (turns : List (String × TurnRand)),
       (runSession sim kb db turns).conversations.length
         = db.conversations.length
             + (turns.filter (fun t => !(kbPathTaken sim kb t.1))).length) := by
  constructor
  · intro sim kb r db input h
    rw [respond_of_kbStep_none sim kb r db input (kbStep_eq_none_of_not_taken sim kb input h)]
    simp [log_conversation]
  · intro sim kb db turns
    induction turns generalizing db with
    | nil => simp [runSession]
    | cons t rest ih =>
      obtain ⟨input, r⟩ := t
      rw [runSession]
      rw [ih]
      cases hk : kbStep sim kb input with
      | some a =>
        rw [respond_of_kbStep_some sim kb r db input a hk]
        have : kbPathTaken sim kb input = true := by simp [kbPathTaken, hk]
        simp [List.filter_cons, this]
      | none =>
        rw [respond_of_kbStep_none sim kb r db input hk]
        have : kbPathTaken sim kb input = false := by simp [kbPathTaken, hk]
        simp [List.filter_cons, this, log_conversation]
        omega

/-- Witness for C2 at a concrete non-knowledge-base turn (empty
knowledge base, input "hi"). -/
theorem respond_logs_c2_witness :
    (respond simZero [] ⟨0, 0⟩ ⟨[], []⟩ "hi").2.conversations
      = [] ++ [⟨"hi", (respond simZero [] ⟨0, 0⟩ ⟨[], []⟩ "hi").1, analyze_sentiment "hi"⟩] :=
  respond_logs_c2.1 simZero [] ⟨0, 0⟩ ⟨[], []⟩ "hi" rfl

/-- Claim C10: with the empty knowledge base (the value
`load_knowledge_base` produces when the file is missing),
`find_best_match` returns no match for every input, every turn takes
the pattern path and appends its log record, and `respond` is total
on this state (it always returns a response and a database). -/
theorem empty_knowledge_base_c10 (sim : String → String → ℚ) (r : TurnRand)
    (db : DB) (input : String) :
    find_best_match sim input (missing_file_knowledge_base.map KBEntry.question) = none
    ∧ kbPathTaken sim missing_file_knowledge_base input = false
    ∧ (respond sim missing_file_knowledge_base r db input).2.conversations
        = db.conversations
            ++ [⟨input, (respond sim missing_file_knowledge_base r db input).1,
                 analyze_sentiment input⟩] := by
  refine ⟨rfl, rfl, ?_⟩
  rw [respond_of_kbStep_none sim missing_file_knowledge_base r db input rfl]
  simp [log_conversation]

/-- Claim C9: a submission whose text is empty after stripping
whitespace is ignored by `send_message`: no response is produced, no
user message is rendered, no conversation record is created — the
whole UI state (display and database) is returned unchanged. -/
theorem send_message_empty_c9 (sim : String → String → ℚ) (kb : List KBEntry)
    (r : TurnRand) (pre : List ResourceEntry) (suggest : Bool) (sc : Nat)
    (raw : String) (ui : UIState) (h : pyStrip raw = "") :
    send_message sim kb r pre suggest sc raw ui = ui := by
  unfold send_message
  simp [h]

/-- Witness for C9 at the concrete whitespace-only submission. -/
theorem send_message_empty_c9_witness :
    send_message fullSim [] ⟨0, 0⟩ [] true 0 "   " ⟨⟨[], []⟩, []⟩ = ⟨⟨[], []⟩, []⟩ :=
  send_message_empty_c9 fullSim [] ⟨0, 0⟩ [] true 0 "   " ⟨⟨[], []⟩, []⟩ (by decide)

/-- Claim C8: resource seeding is idempotent: the fixed literal list
(18 rows) is inserted only into an empty resources table, a second
run on the now non-empty table inserts nothing, and two consecutive
runs from empty leave exactly the fixed literal set size of rows. -/
theorem initialize_resources_c8 (db : DB) :
    seed_resources.length = 18
    ∧ (db.resources = [] → (initialize_resources db).resources = seed_resources)
    ∧ (db.resources ≠ [] → initialize_resources db = db)
    ∧ initialize_resources (initialize_resources db) = initialize_resources db
    ∧ (db.resources = [] →
        (initialize_resources (initialize_resources db)).resources.length = 18) := by
  have hlen : seed_resources.length = 18 := rfl
  refine ⟨hlen, fun h => ?_, fun h => ?_, ?_, fun h => ?_⟩
  · unfold initialize_resources
    simp [h]
  · unfold initialize_resources
    simp [List.length_eq_zero, h]
  · unfold initialize_resources
    by_cases h : db.resources.length = 0
    · simp only [if_pos h, List.length_append, hlen]
      rw [if_neg (by omega)]
    · simp only [if_neg h]
  · unfold initialize_resources
    simp [h, hlen]

/-- Witness for C8 starting from the empty resources table. -/
theorem initialize_resources_c8_witness :
    (initialize_resources ⟨[], []⟩).resources = seed_resources
    ∧ (initialize_resources (initialize_resources ⟨[], []⟩)).resources.length = 18 :=
  ⟨(initialize_resources_c8 ⟨[], []⟩).2.1 rfl,
   (initialize_resources_c8 ⟨[], []⟩).2.2.2.2 rfl⟩

/-- Claim C7: `suggest_resources` with an empty candidate set (the
live-filtered set for a given category, or the preloaded full set
when no category is given) returns the "no resource" outcome (`none`)
instead of raising; it never mutates the database; and when the
candidate set is non-empty it returns one of its members. -/
theorem suggest_resources_c7 (pre : List ResourceEntry) (c : Nat)
    (cat : Option String) (db : DB) :
    (resource_candidates pre cat db = [] → (suggest_resources pre c cat db).1 = none)
    ∧ (suggest_resources pre c cat db).2 = db
    ∧ (resource_candidates pre cat db ≠ [] →
        ∃ res ∈ resource_candidates pre cat db,
          (suggest_resources pre c cat db).1 = some res) := by
  refine ⟨fun h => ?_, rfl, fun h => ?_⟩
  · unfold suggest_resources
    simp [h]
  · unfold suggest_resources
    cases hl : resource_candidates pre cat db with
    | nil => exact absurd hl h
    | cons x xs =>
      have hlt : c % (x :: xs).length < (x :: xs).length :=
        Nat.mod_lt _ (by simp)
      refine ⟨(x :: xs).get ⟨c % (x :: xs).length, hlt⟩, ?_, ?_⟩
      · exact List.get_mem _ _ _
      · simp only [List.isEmpty_cons, Bool.false_eq_true, if_false]
        exact List.get?_eq_get hlt

/-- Witness for C7 at a concrete empty candidate set (empty table,
category "crisis"). -/
theorem suggest_resources_c7_witness :
    (suggest_resources [] 0 (some "crisis") ⟨[], []⟩).1 = none
    ∧ (suggest_resources [] 0 (some "crisis") ⟨[], []⟩).2 = (⟨[], []⟩ : DB) :=
  ⟨(suggest_resources_c7 [] 0 (some "crisis") ⟨[], []⟩).1 rfl,
   (suggest_resources_c7 [] 0 (some "crisis") ⟨[], []⟩).2.1⟩

theorem matchFirstAux_isSome_of_any (input : String) :
    ∀ (i : Nat) (ps : List (Pat × List String)), Pat.any ∈ ps.map Prod.fst →
      (matchFirstAux i ps input).isSome := by
  intro i ps
  induction ps generalizing i with
  | nil => simp
  | cons hd tl ih =>
    intro h
    obtain ⟨p, ts⟩ := hd
    rw [matchFirstAux]
    cases hp : patMatch p input with
    | some g => simp
    | none =>
      by_cases hpa : p = Pat.any
      · subst hpa
        simp [patMatch] at hp
      · apply ih (i + 1)
        simp only [List.map_cons, List.mem_cons] at h
        rcases h with h1 | h1
        · exact absurd h1.symm hpa
        · simpa using h1

theorem matchFirstAux_templates (input : String) :
    ∀ (i : Nat) (ps : List (Pat × List String)) (j : Nat) (g : MatchGroups)
      (ts : List String), matchFirstAux i ps input = some (j, g, ts) →
      ∃ p, (p, ts) ∈ ps := by
  intro i ps
  induction ps generalizing i with
  | nil => simp [matchFirstAux]
  | cons hd tl ih =>
    intro j g ts h
    obtain ⟨p, ts0⟩ := hd
    rw [matchFirstAux] at h
    cases hp : patMatch p input with
    | some g0 =>
      rw [hp] at h
      simp only [Option.some.injEq, Prod.mk.injEq] at h
      exact ⟨p, by simp [← h.2.2]⟩
    | none =>
      rw [hp] at h
      obtain ⟨p1, hp1⟩ := ih (i + 1) j g ts h
      exact ⟨p1, List.mem_cons_of_mem _ hp1⟩

theorem choose_mem (c : Nat) (l : List String) (h : l ≠ []) : choose c l ∈ l := by
  unfold choose
  have hlt : c % l.length < l.length := Nat.mod_lt _ (List.length_pos.mpr h)
  simp only [List.getD_eq_getElem?_getD, List.getElem?_eq_getElem hlt, Option.getD_some]
  exact List.getElem_mem _

/-- Claim C3: for every input string (and every random template
draw), the Pattern Response Engine succeeds — the final catch-all
rule `(.*)` matches every input, so the first-match scan always finds
a rule — and the produced reply is a non-empty string. -/
theorem pattern_engine_c3 (input : String) (c : Nat) :
    (matchFirst pairs input).isSome
    ∧ ∃ s, chatRespond c input = some s ∧ s ≠ "" := by
  have hsome : (matchFirst pairs input).isSome :=
    matchFirstAux_isSome_of_any input 0 pairs (by decide)
  refine ⟨hsome, ?_⟩
  obtain ⟨⟨j, g, ts⟩, hm⟩ := Option.isSome_iff_exists.mp hsome
  obtain ⟨p, hp⟩ := matchFirstAux_templates input 0 pairs j g ts hm
  have hts : ts ≠ [] ∧ ∀ t ∈ ts, hasLit t.data = true := by
    have hall : ∀ x ∈ pairs, x.2 ≠ [] ∧ ∀ t ∈ x.2, hasLit t.data = true := by decide
    exact hall (p, ts) hp
  have hchoose : choose c ts ∈ ts := choose_mem c ts hts.1
  have hpos : 0 < (wildcards (groupsFun g) (choose c ts).data).length :=
    wildcards_length_pos _ _ (hts.2 _ hchoose)
  refine ⟨String.mk (wildcards (groupsFun g) (choose c ts).data), ?_, ?_⟩
  · unfold chatRespond
    rw [hm]
  · intro hempty
    have : (wildcards (groupsFun g) (choose c ts).data) = [] := by
      simpa using congrArg String.data hempty
    rw [this] at hpos
    simp at hpos

theorem foldl_choice_mem {α : Type} (g : α → α → α)
    (hg : ∀ a b, g a b = a ∨ g a b = b) :
    ∀ (xs : List α) (x : α), xs.foldl g x ∈ x :: xs := by
  intro xs
  induction xs with
  | nil => intro x; simp
  | cons y ys ih =>
    intro x
    rw [List.foldl_cons]
    rcases hg x y with h | h <;> rw [h]
    · rcases List.mem_cons.mp (ih x) with h1 | h1 <;> simp [h1]
    · rcases List.mem_cons.mp (ih y) with h1 | h1 <;> simp [h1]

/-- Claim C5: the Knowledge Base Lookup returns at most one candidate
(the underlying filtered-best list has length at most 1), accepts a
candidate only when its similarity to the user text is at least the
fixed threshold 0.6, and is deterministic — in this pure model two
calls with identical arguments are literally the same value, which is
exactly what the absence of hidden randomness amounts to. -/
theorem find_best_match_c5 (sim : String → String → ℚ) (questions : List String)
    (input : String) :
    (get_close_matches sim input questions sim_cutoff).length ≤ 1
    ∧ (∀ q, find_best_match sim input questions = some q →
        q ∈ questions ∧ sim_cutoff ≤ sim q input)
    ∧ find_best_match sim input questions = find_best_match sim input questions := by
  refine ⟨?_, ?_, rfl⟩
  · unfold get_close_matches
    cases questions.filter (fun x => decide (sim_cutoff ≤ sim x input)) with
    | nil => simp
    | cons x xs => simp
  · intro q hq
    unfold find_best_match get_close_matches at hq
    cases hf : questions.filter (fun x => decide (sim_cutoff ≤ sim x input)) with
    | nil =>
      rw [hf] at hq
      simp at hq
    | cons x xs =>
      rw [hf] at hq
      simp only [List.head?_cons, Option.some.injEq] at hq
      have hmem : q ∈ x :: xs := by
        rw [← hq]
        exact foldl_choice_mem _
          (fun a b => by by_cases hc : sim a input < sim b input <;> simp [hc]) xs x
      have hfil : q ∈ questions.filter (fun x => decide (sim_cutoff ≤ sim x input)) := by
        rw [hf]; exact hmem
      refine ⟨List.mem_of_mem_filter hfil, ?_⟩
      have := List.of_mem_filter hfil
      simpa using this

/-- Witness for C5 at a concrete one-question list and a similarity
function putting every pair at ratio 1. -/
theorem find_best_match_c5_witness :
    "hello" ∈ ["hello"] ∧ sim_cutoff ≤ fullSim "hello" "hello" :=
  (find_best_match_c5 fullSim ["hello"] "hello").2.1 "hello" (by decide)

theorem choose_two_zero (t1 t2 : String) (c : Nat) (h : c % 2 = 0) :
    choose c [t1, t2] = t1 := by
  unfold choose
  simp [h]

theorem choose_two_one (t1 t2 : String) (c : Nat) (h : c % 2 = 1) :
    choose c [t1, t2] = t2 := by
  unfold choose
  simp [h]

/-- Claim C6 counterexample: the input "feeling sad" contains the
text "feeling sad", yet the engine does not select the rule
`(.*) feeling (sad|depressed|lonely|down|exhausted|hopeless)(.*)`:
that regex requires a space before "feeling" (`(.*)` followed by the
literal " feeling "), which this input lacks, so the scan falls
through to the catch-all `(.*)` (rule index 13), whose match has no
"sad" capture — refuting the claim's "for every input containing the
text \"feeling sad\"". -/
theorem feeling_sad_counterexample_c6 :
    (matchFirst pairs "feeling sad").map (fun x => (x.1, x.2.1))
      = some (13, ⟨"feeling sad", "", ""⟩)
    ∧ (matchFirst pairs "feeling sad").map Prod.fst ≠ some 0 := by
  constructor
  · decide
  · decide

/-- Claim C6 (amended): for the fixed input "I am feeling sad today"
(which contains " feeling sad" with its leading space), the engine
selects the first rule — the one whose regular expression is
`(.*) feeling (sad|depressed|lonely|down|exhausted|hopeless)(.*)` —
its capture group 2 equals "sad", and whichever of the rule's two
response templates the random draw picks has its %2 placeholder
replaced by the string "sad" verbatim. -/
theorem feeling_sad_amended_c6 (c : Nat) :
    (matchFirst pairs "I am feeling sad today").map (fun x => (x.1, x.2.1))
      = some (0, ⟨"I am", "sad", " today"⟩)
    ∧ (chatRespond c "I am feeling sad today"
        = some "I\x27m really sorry you\x27re feeling sad. That sounds really difficult. Would you like to share more about what\x27s going on?"
       ∨ chatRespond c "I am feeling sad today"
        = some "I hear that you\x27re feeling sad. That must be really hard. I\x27m here to listen if you want to talk about it.") := by
  have hm : matchFirst pairs "I am feeling sad today"
      = some (0, ⟨"I am", "sad", " today"⟩,
          ["I\x27m really sorry you\x27re feeling %2. That sounds really difficult. Would you like to share more about what\x27s going on?",
           "I hear that you\x27re feeling %2. That must be really hard. I\x27m here to listen if you want to talk about it."]) := by
    decide
  refine ⟨by rw [hm]; rfl, ?_⟩
  rcases Nat.mod_two_eq_zero_or_one c with h | h
  · left
    simp only [chatRespond, hm]
    rw [choose_two_zero _ _ c h]
    decide
  · right
    simp only [chatRespond, hm]
    rw [choose_two_one _ _ c h]
    decide
